import Mathlib

/-!
# Verification of the feathered-crop compositing algorithm (`cutter.py`)

Shallow embedding of `create_feathered_image` and the configuration check of
`process` from `src/cutter.py`, together with the Pillow primitives the code
calls (`Image.crop`, `Image.convert("RGBA")`, `ImageDraw.rectangle`,
`ImageDraw.ellipse`, `Image.putalpha`), modelled at the pixel level:

* A raster is a width, a height, an alpha-presence flag (PIL mode RGB vs RGBA)
  and a total pixel function; pixels outside the stored bounds are only read
  through `Image.crop`, which fills them with zero (Pillow's documented
  padding behaviour for out-of-bounds crop boxes).
* `Image.crop` rounds each float box coordinate with Python's `round`
  (round-half-to-even).  In the code every coordinate is an exact multiple of
  1/2 (`(W ± cropSize)/2 + offset` with integer `W`, `cropSize`, `offset`),
  so the float computation is exact and is embedded as the doubled integer
  `W ± cropSize + 2*offset`; `pilRound2 n` is Python's `round` applied to the
  exact value `n/2`.
* `int(255 * (i / feather))` in the gradient loop equals the exact
  `255 * i / feather` in integer (floor) division for every reachable
  `0 ≤ i < feather` (the double-precision product never falls below an
  attained integer value), so the intensity is embedded as Nat division.
* `ImageDraw.rectangle (x0, y0, x1, y1)` fills the pixels with
  `x0 ≤ x ≤ x1` and `y0 ≤ y ≤ y1` (both corners inclusive);
  `ImageDraw.ellipse` fills the ellipse inscribed in that box.
-/

/-- One pixel: three colour channels and an alpha channel.  For a raster in
RGB mode (`hasAlpha = false`) the `a` field is not meaningful and is
normalised by `convertRGBA`. -/
structure Pixel where
  r : Nat
  g : Nat
  b : Nat
  a : Nat
  deriving Repr, DecidableEq

/-- The zero pixel used by `Image.crop` to pad areas outside the source. -/
def Pixel.zero : Pixel := ⟨0, 0, 0, 0⟩

/-- A raster image: dimensions, PIL mode (RGB vs RGBA) and pixel content. -/
structure Raster where
  width : Int
  height : Int
  hasAlpha : Bool
  data : Int → Int → Pixel

/-- Python's `round` applied to the exact half-integer `n/2`
(round-half-to-even: `round(0.5) = 0`, `round(1.5) = 2`, `round(-0.5) = 0`).
This is the rounding `Image.crop` applies to each crop-box coordinate. -/
def pilRound2 (n : Int) : Int :=
  if n % 2 = 0 then n / 2
  else if ((n - 1) / 2) % 2 = 0 then (n - 1) / 2 else (n - 1) / 2 + 1

/-- The centred square crop box of `create_feathered_image` (step 1 of the
code), after Pillow's per-coordinate rounding: the code computes
`left = (width - crop_size) / 2`, …, adds the integer offsets, and
`Image.crop` rounds each float coordinate with Python's `round`.
Returns `(x0, y0, x1, y1)`. -/
def cropBox (w h ox oy : Int) : Int × Int × Int × Int :=
  let c := min w h
  (pilRound2 (w - c + 2 * ox), pilRound2 (h - c + 2 * oy),
   pilRound2 (w + c + 2 * ox), pilRound2 (h + c + 2 * oy))

/-- `image.crop(crop_box)` for the square branch: the result has exactly the
size of the rounded box; pixels of the box that fall outside the source are
filled with the zero pixel (Pillow pads out-of-bounds crops, it does not
clamp). -/
def cropSquare (img : Raster) (ox oy : Int) : Raster :=
  let b := cropBox img.width img.height ox oy
  { width := b.2.2.1 - b.1
    height := b.2.2.2 - b.2.1
    hasAlpha := img.hasAlpha
    data := fun x y =>
      if 0 ≤ x + b.1 ∧ x + b.1 < img.width ∧ 0 ≤ y + b.2.1 ∧ y + b.2.1 < img.height
      then img.data (x + b.1) (y + b.2.1)
      else Pixel.zero }

/-- `cropped_image.convert("RGBA")`: an RGBA image is returned unchanged
(a copy); an RGB image gains a fully opaque alpha channel. -/
def convertRGBA (img : Raster) : Raster :=
  if img.hasAlpha then img
  else { img with
          hasAlpha := true
          data := fun x y => { img.data x y with a := 255 } }

/-- Step 1 of `create_feathered_image`: square crop (or `image.copy()` when
`square` is false) followed by conversion to RGBA. -/
def cropStage (img : Raster) (square : Bool) (ox oy : Int) : Raster :=
  convertRGBA (if square then cropSquare img ox oy else img)

/-- A PIL draw box `(x0, y0, x1, y1)`. -/
structure Box where
  x0 : Int
  y0 : Int
  x1 : Int
  y1 : Int
  deriving Repr, DecidableEq

/-- The two values of the `shape` CLI choice. -/
inductive ShapeKind where
  | circle
  | rectangle
  deriving Repr, DecidableEq

/-- Pixel membership in a filled PIL shape over a box.
`rectangle` fills both corners inclusively; `circle` fills the ellipse
inscribed in the box: `((2x - x0 - x1)/(x1 - x0))² + ((2y - y0 - y1)/(y1 - y0))² ≤ 1`,
cleared of denominators. -/
def inLayer (shape : ShapeKind) (box : Box) (x y : Int) : Bool :=
  match shape with
  | .rectangle => box.x0 ≤ x && x ≤ box.x1 && box.y0 ≤ y && y ≤ box.y1
  | .circle =>
      (2 * x - box.x0 - box.x1) ^ 2 * (box.y1 - box.y0) ^ 2 +
        (2 * y - box.y0 - box.y1) ^ 2 * (box.x1 - box.x0) ^ 2 ≤
        (box.x1 - box.x0) ^ 2 * (box.y1 - box.y0) ^ 2

/-- An alpha mask: a single-channel grid, addressed like the draw canvas. -/
def Mask : Type := Int → Int → Nat

/-- `draw.ellipse(box, fill=color)` / `draw.rectangle(box, fill=color)`:
overwrite every covered cell with `color`, leave the rest. -/
def drawFill (shape : ShapeKind) (box : Box) (color : Nat) (m : Mask) : Mask :=
  fun x y => if inLayer shape box x y then color else m x y

/-- `solid_shape_box` of the code: the rectangle inset from every edge of a
`w × h` mask by `shape_padding`. -/
def solidBoxOf (w h pad : Int) : Box :=
  ⟨pad, pad, w - pad, h - pad⟩

/-- `feather_box` of iteration `i`: the solid box expanded outward on all
four sides by `inset = feather - i`. -/
def ringBoxOf (w h pad feather : Int) (i : Nat) : Box :=
  let sb := solidBoxOf w h pad
  ⟨sb.x0 - (feather - i), sb.y0 - (feather - i),
   sb.x1 + (feather - i), sb.y1 + (feather - i)⟩

/-- The gradient intensity `int(255 * (i / feather))` of iteration `i`
(the float expression equals exact floor division for all reachable inputs). -/
def intensityOf (feather i : Nat) : Nat := 255 * i / feather

/-- Step 3 of `create_feathered_image`: starting from the all-zero mask,
draw the `feather` concentric ring shapes in ascending `i`, each filled with
`intensityOf feather i`. -/
def ringsFold (w h : Int) (shape : ShapeKind) (feather pad : Int) : Mask :=
  (List.range feather.toNat).foldl
    (fun m i => drawFill shape (ringBoxOf w h pad feather i) (intensityOf feather.toNat i) m)
    (fun _ _ => 0)

/-- Steps 2–4 of `create_feathered_image`: start from the all-zero mask,
draw the `feather` concentric rings in ascending `i`, then draw the solid
shape with fill 255 on top. -/
def buildMask (w h : Int) (shape : ShapeKind) (feather pad : Int) : Mask :=
  drawFill shape (solidBoxOf w h pad) 255 (ringsFold w h shape feather pad)

/-- `cropped_image.putalpha(mask)`: replace the alpha band with the mask;
colour bands are untouched. -/
def putalpha (img : Raster) (m : Mask) : Raster :=
  { img with
     hasAlpha := true
     data := fun x y => { img.data x y with a := m x y } }

/-- `create_feathered_image`: crop (and convert to RGBA), build the alpha
mask for the cropped size, apply it to the alpha channel. -/
def create_feathered_image (img : Raster) (square : Bool) (ox oy feather : Int)
    (shape : ShapeKind) (pad : Int) : Raster :=
  let cropped := cropStage img square ox oy
  putalpha cropped (buildMask cropped.width cropped.height shape feather pad)

/-- The configuration of the `process` command (CLI options, after click's
own `IntRange(min=1)` checks on `feather` and `shape_padding`). -/
structure Config where
  square : Bool
  offsetX : Int
  offsetY : Int
  feather : Int
  shape : ShapeKind
  shapePadding : Int

/-- The error message of the input-validation step of `process`. -/
def badParamMsg : String :=
  "Shape padding must be larger than the feather value for the effect to work correctly."

/-- The batch driver `process`, with the filesystem elided: the input-
validation check runs first and raises `click.BadParameter` before any image
is touched; otherwise every input image is transformed. -/
def process (cfg : Config) (images : List Raster) : Except String (List Raster) :=
  if cfg.shapePadding ≤ cfg.feather then
    .error badParamMsg
  else
    .ok (images.map (fun img =>
      create_feathered_image img cfg.square cfg.offsetX cfg.offsetY
        cfg.feather cfg.shape cfg.shapePadding))

/-- Modelled from the spec: the clamp-to-bounds crop policy of §4.1/§7
("clamp to bounds … with a warning"), which the spec mandates for crop boxes
that extend outside the image; no such clamping exists in `src/cutter.py`.
The rounded box is intersected with `[0, W] × [0, H]` before cropping, so
every output pixel comes from the source raster. -/
def clampedCropSquare (img : Raster) (ox oy : Int) : Raster :=
  let b := cropBox img.width img.height ox oy
  let x0 := max 0 (min b.1 img.width)
  let y0 := max 0 (min b.2.1 img.height)
  let x1 := max 0 (min b.2.2.1 img.width)
  let y1 := max 0 (min b.2.2.2 img.height)
  { width := x1 - x0
    height := y1 - y0
    hasAlpha := img.hasAlpha
    data := fun x y => img.data (x + x0) (y + y0) }

/-- A concrete 2×2 RGB raster of constant pixels, for witnesses. -/
def twoByTwo : Raster := ⟨2, 2, false, fun _ _ => ⟨7, 7, 7, 0⟩⟩

/-- A concrete 1×1 RGBA raster whose single pixel has alpha 7. -/
def alphaRaster : Raster := ⟨1, 1, true, fun _ _ => ⟨1, 2, 3, 7⟩⟩

/-- A concrete 4×3 RGB raster of constant pixels. -/
def fourByThree : Raster := ⟨4, 3, false, fun _ _ => ⟨5, 5, 5, 0⟩⟩

example : buildMask 30 30 ShapeKind.circle 5 10 10 10 = 102 := by decide
example : buildMask 30 30 ShapeKind.rectangle 5 10 10 10 = 255 := by decide
example : cropBox 203 100 0 0 = (52, 0, 152, 100) := by decide
example : cropBox 4 3 0 0 = (0, 0, 4, 3) := by decide

/-! ## Helper lemmas -/

/-- `pilRound2 n` is the integer nearest to `n/2`, ties resolved to the even
integer — Python's round-half-to-even on exact halves. -/
theorem pilRound2_spec (n : Int) :
    -1 ≤ 2 * pilRound2 n - n ∧ 2 * pilRound2 n - n ≤ 1 ∧
      (2 * pilRound2 n ≠ n → pilRound2 n % 2 = 0) := by
  unfold pilRound2
  split
  · omega
  · split <;> omega

/-- Evaluating a fold of fill operations at one cell is the pointwise fold
of that cell's overwrites. -/
theorem foldl_drawFill_apply (shape : ShapeKind) (boxes : Nat → Box)
    (cols : Nat → Nat) (x y : Int) :
    ∀ (l : List Nat) (m : Mask),
      (l.foldl (fun m i => drawFill shape (boxes i) (cols i) m) m) x y =
        l.foldl (fun v i => if inLayer shape (boxes i) x y then cols i else v) (m x y)
  | [], _ => rfl
  | a :: t, m => by
      simp only [List.foldl_cons]
      rw [foldl_drawFill_apply shape boxes cols x y t (drawFill shape (boxes a) (cols a) m)]
      rfl

/-- `find?` over an append searches the left list first. -/
theorem find?_append_split {α : Type} (p : α → Bool) (l2 : List α) :
    ∀ l1 : List α, (l1 ++ l2).find? p =
      match l1.find? p with
      | some a => some a
      | none => l2.find? p
  | [] => rfl
  | a :: t => by
      by_cases h : p a = true
      · simp [List.find?_cons_of_pos _ h]
      · simp [List.find?_cons_of_neg _ h, find?_append_split p l2 t]

/-- A pointwise fold of overwrites ends at the colour of the last covering
layer (the first covering layer of the reversed list), or at the initial
value when no layer covers the cell. -/
theorem foldl_paint_eq_find (cover : Nat → Bool) (cols : Nat → Nat) :
    ∀ (l : List Nat) (v : Nat),
      l.foldl (fun v i => if cover i then cols i else v) v =
        match l.reverse.find? cover with
        | some i => cols i
        | none => v
  | [], _ => rfl
  | a :: t, v => by
      simp only [List.foldl_cons, List.reverse_cons]
      rw [foldl_paint_eq_find cover cols t, find?_append_split]
      cases htf : t.reverse.find? cover with
      | some i => rfl
      | none =>
        by_cases h : cover a = true
        · simp [List.find?_cons_of_pos _ h, h]
        · simp [List.find?_cons_of_neg _ h, h]

/-- Monotonicity of the pointwise fold: if every layer covering `q` also
covers `p`, layer colours are nondecreasing along the draw order, and the
running value at `q` never exceeds the colours still to be drawn, the final
value at `q` is at most the final value at `p`. -/
theorem foldl_paint_mono (cols : Nat → Nat) (coverP coverQ : Nat → Bool) :
    ∀ (l : List Nat) (vp vq : Nat),
      (∀ i ∈ l, coverQ i = true → coverP i = true) →
      List.Pairwise (fun i j => cols i ≤ cols j) l →
      vq ≤ vp → (∀ i ∈ l, vq ≤ cols i) →
      l.foldl (fun v i => if coverQ i then cols i else v) vq ≤
        l.foldl (fun v i => if coverP i then cols i else v) vp
  | [], _, _, _, _, hv, _ => hv
  | a :: t, vp, vq, hcov, hpw, hv, hfut => by
      simp only [List.foldl_cons]
      rcases List.pairwise_cons.mp hpw with ⟨hpa, hpt⟩
      refine foldl_paint_mono cols coverP coverQ t _ _
        (fun i hi => hcov i (List.mem_cons_of_mem a hi)) hpt ?_ ?_
      · by_cases hq : coverQ a = true
        · have hp := hcov a (List.mem_cons_self a t) hq
          simp [hq, hp]
        · by_cases hp : coverP a = true
          · simpa [hq, hp] using hfut a (List.mem_cons_self a t)
          · simpa [hq, hp] using hv
      · intro i hi
        by_cases hq : coverQ a = true
        · simpa [hq] using hpa i hi
        · simpa [hq] using hfut i (List.mem_cons_of_mem a hi)

/-- The pointwise fold stays below a bound that dominates the initial value
and every layer colour. -/
theorem foldl_paint_le (cols : Nat → Nat) (cover : Nat → Bool) (bound : Nat) :
    ∀ (l : List Nat) (v : Nat), v ≤ bound → (∀ i ∈ l, cols i ≤ bound) →
      l.foldl (fun v i => if cover i then cols i else v) v ≤ bound
  | [], _, hv, _ => hv
  | a :: t, v, hv, hc => by
      simp only [List.foldl_cons]
      refine foldl_paint_le cols cover bound t _ ?_
        (fun i hi => hc i (List.mem_cons_of_mem a hi))
      by_cases hq : cover a = true
      · simpa [hq] using hc a (List.mem_cons_self a t)
      · simpa [hq] using hv

/-- Pointwise value of the gradient pass. -/
theorem ringsFold_apply (w h : Int) (shape : ShapeKind) (feather pad : Int) (x y : Int) :
    ringsFold w h shape feather pad x y =
      (List.range feather.toNat).foldl
        (fun v i => if inLayer shape (ringBoxOf w h pad feather i) x y
                    then intensityOf feather.toNat i else v) 0 := by
  unfold ringsFold
  rw [foldl_drawFill_apply]

/-- Each ring intensity is below 255. -/
theorem intensityOf_le (f i : Nat) (hi : i < f) : intensityOf f i ≤ 255 := by
  unfold intensityOf
  calc 255 * i / f ≤ 255 * f / f :=
        Nat.div_le_div_right (Nat.mul_le_mul_left 255 (le_of_lt hi))
    _ = 255 := Nat.mul_div_cancel _ (Nat.lt_of_le_of_lt (Nat.zero_le _) hi)

/-- The gradient pass never exceeds 255. -/
theorem ringsFold_le (w h : Int) (shape : ShapeKind) (feather pad : Int) (x y : Int) :
    ringsFold w h shape feather pad x y ≤ 255 := by
  rw [ringsFold_apply]
  refine foldl_paint_le _ _ 255 _ 0 (Nat.zero_le _) ?_
  intro i hi
  exact intensityOf_le _ _ (List.mem_range.mp hi)

/-- Dimensions are unchanged by RGBA conversion. -/
theorem convertRGBA_dims (img : Raster) :
    (convertRGBA img).width = img.width ∧ (convertRGBA img).height = img.height := by
  unfold convertRGBA
  split <;> exact ⟨rfl, rfl⟩

/-- The square pipeline output has the dimensions of the rounded crop box. -/
theorem create_dims_square (img : Raster) (ox oy feather pad : Int) (shape : ShapeKind) :
    (create_feathered_image img true ox oy feather shape pad).width =
      pilRound2 (img.width + min img.width img.height + 2 * ox) -
        pilRound2 (img.width - min img.width img.height + 2 * ox) ∧
    (create_feathered_image img true ox oy feather shape pad).height =
      pilRound2 (img.height + min img.width img.height + 2 * oy) -
        pilRound2 (img.height - min img.width img.height + 2 * oy) := by
  have h := convertRGBA_dims (cropSquare img ox oy)
  exact ⟨h.1, h.2⟩

/-- Difference of two Pillow-rounded half-integer coordinates a fixed `2 * c`
apart: it is `c` up to one; exactly `c` when the halves are exact or `c` is
even; and never `c` — only `c - 1` or `c + 1` — when both halves are ties
and `c` is odd, since ties round both endpoints to even integers. -/
theorem pilRound2_diff (n0 n1 c : Int) (hdiff : n1 - n0 = 2 * c) :
    (pilRound2 n1 - pilRound2 n0 = c ∨ pilRound2 n1 - pilRound2 n0 = c - 1 ∨
      pilRound2 n1 - pilRound2 n0 = c + 1) ∧
    (n0 % 2 = 0 ∨ c % 2 = 0 → pilRound2 n1 - pilRound2 n0 = c) ∧
    (¬ n0 % 2 = 0 ∧ ¬ c % 2 = 0 →
      pilRound2 n1 - pilRound2 n0 = c - 1 ∨ pilRound2 n1 - pilRound2 n0 = c + 1) := by
  obtain ⟨h0a, h0b, h0c⟩ := pilRound2_spec n0
  obtain ⟨h1a, h1b, h1c⟩ := pilRound2_spec n1
  by_cases e0 : 2 * pilRound2 n0 = n0
  · by_cases e1 : 2 * pilRound2 n1 = n1
    · exact ⟨by omega, fun _ => by omega, fun hp => by omega⟩
    · have := h1c e1
      exact ⟨by omega, fun _ => by omega, fun hp => by omega⟩
  · have he0 := h0c e0
    by_cases e1 : 2 * pilRound2 n1 = n1
    · exact ⟨by omega, fun _ => by omega, fun hp => by omega⟩
    · have he1 := h1c e1
      exact ⟨by omega, fun hp => by omega, fun hp => by omega⟩

/-! ## Claims -/

/-- C1, counterexample: with a 30×30 mask, `featherWidth = 5 <
shapePadding = 10`, the corner cell (10, 10) of the solid box (which the
rectangle variant fills) is NOT 255 under the circle variant — the solid
ellipse misses the box corner, and the last gradient ring covering it leaves
intensity 102. -/
theorem C1_counterexample :
    (5 : Int) < 10 ∧ inLayer ShapeKind.rectangle (solidBoxOf 30 30 10) 10 10 = true ∧
      buildMask 30 30 ShapeKind.circle 5 10 10 10 ≠ 255 := by decide

/-- C1, amended: after `buildMask`, every cell covered by the solid shape —
the whole solid box for the rectangle variant, the ellipse inscribed in the
solid box for the circle variant — has value exactly 255, whenever
`shapePadding > featherWidth`. -/
theorem C1_solid_region_opaque (w h feather pad : Int) (shape : ShapeKind) (x y : Int)
    (_hpf : feather < pad) (hin : inLayer shape (solidBoxOf w h pad) x y = true) :
    buildMask w h shape feather pad x y = 255 := by
  unfold buildMask drawFill
  simp [hin]

/-- C1, witness: the amended statement at the 30×30 rectangle instance. -/
theorem C1_solid_region_opaque_witness :
    buildMask 30 30 ShapeKind.rectangle 5 10 15 15 = 255 :=
  C1_solid_region_opaque 30 30 5 10 ShapeKind.rectangle 15 15 (by decide) (by decide)

/-- C2, counterexample: cropping a 2×2 raster with `offset_x = 5` (crop box
entirely right of the image) does not clamp: the output keeps the full box
width 2 (the spec's clamp policy would leave width 0) and its pixel (0, 0)
is a newly created zero pixel, with no warning surfaced anywhere. -/
theorem C2_counterexample :
    (cropSquare twoByTwo 5 0).width = 2 ∧ (clampedCropSquare twoByTwo 5 0).width = 0 ∧
      (cropSquare twoByTwo 5 0).data 0 0 = Pixel.zero := by decide

/-- C2, amended: when the crop box extends outside the image bounds the crop
does not crash (it is total) and does not clamp: the box keeps its full
size and every cell of the box that falls outside the source raster is
filled with the zero pixel; no warning is surfaced. -/
theorem C2_out_of_bounds_padded (img : Raster) (ox oy x y : Int)
    (h : ¬ (0 ≤ x + (cropBox img.width img.height ox oy).1 ∧
            x + (cropBox img.width img.height ox oy).1 < img.width ∧
            0 ≤ y + (cropBox img.width img.height ox oy).2.1 ∧
            y + (cropBox img.width img.height ox oy).2.1 < img.height)) :
    (cropSquare img ox oy).data x y = Pixel.zero := by
  simp only [cropSquare]
  rw [if_neg h]

/-- C2, witness: the amended statement at the out-of-bounds 2×2 instance. -/
theorem C2_out_of_bounds_padded_witness :
    (cropSquare twoByTwo 5 0).data 0 0 = Pixel.zero :=
  C2_out_of_bounds_padded twoByTwo 5 0 0 0 (by decide)

/-- C3, counterexample: for a 203×100 raster with zero offsets the claimed
truncation rule gives `left = floor((203 - 100)/2) = 51`, but the code
(Pillow's `round` on the float midpoint 51.5) produces `left = 52`. -/
theorem C3_counterexample :
    (cropBox 203 100 0 0).1 = 52 ∧ (203 - min (203 : Int) 100) / 2 + 0 = 51 := by decide

/-- C3, amended: the crop box rounds each coordinate with Python's
round-half-to-even of the exact midpoint, not truncation: `left` (and `top`)
is the integer nearest to `(W - cropSize)/2 + offsetX` (distance at most
1/2, i.e. `|2·left - (W - cropSize + 2·offsetX)| ≤ 1`), and on a half-integer
tie the even integer is chosen. -/
theorem C3_round_half_even (w h ox oy : Int) :
    (-1 ≤ 2 * (cropBox w h ox oy).1 - (w - min w h + 2 * ox) ∧
      2 * (cropBox w h ox oy).1 - (w - min w h + 2 * ox) ≤ 1 ∧
      (2 * (cropBox w h ox oy).1 ≠ w - min w h + 2 * ox →
        (cropBox w h ox oy).1 % 2 = 0)) ∧
    (-1 ≤ 2 * (cropBox w h ox oy).2.1 - (h - min w h + 2 * oy) ∧
      2 * (cropBox w h ox oy).2.1 - (h - min w h + 2 * oy) ≤ 1 ∧
      (2 * (cropBox w h ox oy).2.1 ≠ h - min w h + 2 * oy →
        (cropBox w h ox oy).2.1 % 2 = 0)) :=
  ⟨pilRound2_spec (w - min w h + 2 * ox), pilRound2_spec (h - min w h + 2 * oy)⟩

/-- C3, witness: at the 203×100 instance the tie is broken to the even
integer 52. -/
theorem C3_round_half_even_witness : (cropBox 203 100 0 0).1 % 2 = 0 :=
  ((C3_round_half_even 203 100 0 0).1.2.2) (by decide)

/-- C4: the mask built with `shapePadding > featherWidth` is monotone along
the drawn layers, for both shape variants: if every layer (ring or solid
shape) covering cell `q` also covers cell `p` — `p` at least as near the
solid box as `q` in the inset ordering — then `mask p ≥ mask q`, and the
mask never exceeds 255. -/
theorem C4_mask_monotone (w h feather pad : Int) (shape : ShapeKind)
    (px py qx qy : Int) (_hpf : feather < pad)
    (hcov : ∀ i : Nat, i < feather.toNat →
      inLayer shape (ringBoxOf w h pad feather i) qx qy = true →
      inLayer shape (ringBoxOf w h pad feather i) px py = true)
    (hsolid : inLayer shape (solidBoxOf w h pad) qx qy = true →
      inLayer shape (solidBoxOf w h pad) px py = true) :
    buildMask w h shape feather pad qx qy ≤ buildMask w h shape feather pad px py ∧
      buildMask w h shape feather pad px py ≤ 255 := by
  unfold buildMask drawFill
  by_cases hq : inLayer shape (solidBoxOf w h pad) qx qy = true
  · have hp := hsolid hq
    simp [hq, hp]
  · by_cases hp : inLayer shape (solidBoxOf w h pad) px py = true
    · simp only [hq, hp, if_true, if_false, if_pos, if_neg, not_false_iff]
      simp [hq, hp]
      exact ringsFold_le w h shape feather pad qx qy
    · simp [hq, hp]
      constructor
      · rw [ringsFold_apply, ringsFold_apply]
        refine foldl_paint_mono _ _ _ _ _ _ ?_ ?_ (Nat.le_refl 0) (fun i _ => Nat.zero_le _)
        · exact fun i hi hqi => hcov i (List.mem_range.mp hi) hqi
        · refine (List.pairwise_lt_range _).imp ?_
          intro i j hij
          exact Nat.div_le_div_right (Nat.mul_le_mul_left 255 (le_of_lt hij))
      · exact ringsFold_le w h shape feather pad px py

/-- C4, witness: rectangle variant on a 30×30 mask, cell (15, 15) covered by
every layer that covers (2, 2). -/
theorem C4_mask_monotone_witness :
    buildMask 30 30 ShapeKind.rectangle 5 10 2 2 ≤
        buildMask 30 30 ShapeKind.rectangle 5 10 15 15 ∧
      buildMask 30 30 ShapeKind.rectangle 5 10 15 15 ≤ 255 :=
  C4_mask_monotone 30 30 5 10 ShapeKind.rectangle 15 15 2 2 (by decide) (by decide)
    (by decide)

/-- C5: applying the mask to the alpha channel (`putalpha`) leaves every
colour channel of every pixel unchanged and replaces the alpha channel with
the corresponding mask cell, for every raster and mask. -/
theorem C5_composite_channels (img : Raster) (m : Mask) (x y : Int) :
    ((putalpha img m).data x y).r = (img.data x y).r ∧
    ((putalpha img m).data x y).g = (img.data x y).g ∧
    ((putalpha img m).data x y).b = (img.data x y).b ∧
    ((putalpha img m).data x y).a = m x y :=
  ⟨rfl, rfl, rfl, rfl⟩

/-- C5, witness: the frame condition at a concrete raster, mask and cell. -/
theorem C5_composite_channels_witness :
    ((putalpha twoByTwo (fun _ _ => 9)).data 0 0).r = (twoByTwo.data 0 0).r ∧
    ((putalpha twoByTwo (fun _ _ => 9)).data 0 0).g = (twoByTwo.data 0 0).g ∧
    ((putalpha twoByTwo (fun _ _ => 9)).data 0 0).b = (twoByTwo.data 0 0).b ∧
    ((putalpha twoByTwo (fun _ _ => 9)).data 0 0).a = 9 :=
  C5_composite_channels twoByTwo (fun _ _ => 9) 0 0

/-- C6: a configuration with `shapePadding ≤ featherWidth` is rejected by
`process` before any image is transformed: the whole batch fails with the
`BadParameter` message and no output is produced. -/
theorem C6_config_rejected (cfg : Config) (images : List Raster)
    (h : cfg.shapePadding ≤ cfg.feather) :
    process cfg images = Except.error badParamMsg := by
  unfold process
  rw [if_pos h]

/-- C6, witness: `shapePadding = 5`, `feather = 10` is rejected. -/
theorem C6_config_rejected_witness :
    process ⟨true, 0, 0, 10, ShapeKind.circle, 5⟩ [twoByTwo] =
      Except.error badParamMsg :=
  C6_config_rejected _ _ (by decide)

/-- C7, counterexample: for an RGBA input raster whose pixel has alpha 7,
the `square = false` crop stage does NOT initialize alpha to 255:
`convert("RGBA")` preserves a pre-existing alpha channel. -/
theorem C7_counterexample :
    ((cropStage alphaRaster false 0 0).data 0 0).a = 7 ∧ (7 : Nat) ≠ 255 := by decide

/-- C7, amended: with `geometry.square = false`, the crop stage is the
identity on dimensions and on all colour content, and normalizes the output
to 4 channels; the alpha channel is initialized to fully opaque 255 only
when the input has no alpha channel, and is preserved otherwise. -/
theorem C7_identity_crop (img : Raster) (ox oy x y : Int) :
    (cropStage img false ox oy).width = img.width ∧
    (cropStage img false ox oy).height = img.height ∧
    (cropStage img false ox oy).hasAlpha = true ∧
    ((cropStage img false ox oy).data x y).r = (img.data x y).r ∧
    ((cropStage img false ox oy).data x y).g = (img.data x y).g ∧
    ((cropStage img false ox oy).data x y).b = (img.data x y).b ∧
    ((cropStage img false ox oy).data x y).a =
      (if img.hasAlpha then (img.data x y).a else 255) := by
  unfold cropStage convertRGBA
  by_cases ha : img.hasAlpha = true <;> simp [ha]

/-- C8: pointwise characterization of the gradient loop: the mask equals 255
on the solid shape, and elsewhere equals `floor(255 * i / featherWidth)` for
the LARGEST `i < featherWidth` whose ring — the solid box expanded on all
four sides by `inset(i) = featherWidth - i` — covers the cell (ascending
draw order makes the last, innermost covering ring win), or 0 when no ring
covers the cell. -/
theorem C8_gradient_loop (w h : Int) (shape : ShapeKind) (feather pad : Int)
    (_hf : 1 ≤ feather) (x y : Int) :
    buildMask w h shape feather pad x y =
      if inLayer shape (solidBoxOf w h pad) x y then 255
      else
        match (List.range feather.toNat).reverse.find?
            (fun i => inLayer shape (ringBoxOf w h pad feather i) x y) with
        | some i => 255 * i / feather.toNat
        | none => 0 := by
  unfold buildMask drawFill
  by_cases hs : inLayer shape (solidBoxOf w h pad) x y = true
  · simp [hs]
  · rw [if_neg hs, if_neg hs]
    rw [ringsFold_apply, foldl_paint_eq_find
      (fun i => inLayer shape (ringBoxOf w h pad feather i) x y)
      (fun i => intensityOf feather.toNat i)]
    rfl

/-- C8, witness: the characterization at the 30×30 circle instance with
`featherWidth = 5`. -/
theorem C8_gradient_loop_witness :
    buildMask 30 30 ShapeKind.circle 5 10 10 10 =
      if inLayer ShapeKind.circle (solidBoxOf 30 30 10) 10 10 then 255
      else
        match (List.range (5 : Int).toNat).reverse.find?
            (fun i => inLayer ShapeKind.circle (ringBoxOf 30 30 10 5 i) 10 10) with
        | some i => 255 * i / (5 : Int).toNat
        | none => 0 :=
  C8_gradient_loop 30 30 ShapeKind.circle 5 10 (by decide) 10 10

/-- C9: `create_feathered_image` is deterministic: two invocations on equal
inputs return equal output rasters (the embedding is a pure function — it
performs no I/O and builds a new raster rather than mutating its input). -/
theorem C9_deterministic (img1 img2 : Raster) (sq1 sq2 : Bool)
    (ox1 ox2 oy1 oy2 f1 f2 p1 p2 : Int) (s1 s2 : ShapeKind)
    (him : img1 = img2) (hsq : sq1 = sq2) (hox : ox1 = ox2) (hoy : oy1 = oy2)
    (hf : f1 = f2) (hs : s1 = s2) (hp : p1 = p2) :
    create_feathered_image img1 sq1 ox1 oy1 f1 s1 p1 =
      create_feathered_image img2 sq2 ox2 oy2 f2 s2 p2 := by
  rw [him, hsq, hox, hoy, hf, hs, hp]

/-- C9, witness: determinism at a concrete invocation. -/
theorem C9_deterministic_witness :
    create_feathered_image twoByTwo true 0 0 1 ShapeKind.circle 2 =
      create_feathered_image twoByTwo true 0 0 1 ShapeKind.circle 2 :=
  C9_deterministic twoByTwo twoByTwo true true 0 0 0 0 1 1 2 2
    ShapeKind.circle ShapeKind.circle rfl rfl rfl rfl rfl rfl rfl

/-- C10, counterexample: a 4×3 raster with zero offsets: `min(W, H) = 3`,
but the square pipeline returns a 4-pixel-wide image — the half-integer box
(0.5, 3.5) rounds outward to (0, 4) under round-half-to-even. -/
theorem C10_counterexample :
    (create_feathered_image fourByThree true 0 0 1 ShapeKind.rectangle 2).width = 4 ∧
      min fourByThree.width fourByThree.height = 3 := by decide

/-- C10, amended: with `square = true` each output dimension equals
`c = min(W, H)` up to one pixel; it equals `c` exactly whenever the
corresponding slack (`W - c`, resp. `H - c`) is even or `c` is even, and
when the slack and `c` are both odd it is never `c`: it is `c - 1` or
`c + 1` (round-half-to-even rounds both half-integer box coordinates to even
integers, so the dimension is even while `c` is odd); out-of-bounds crop
regions are filled with new pixels rather than shrinking the output (see
the C2 theorems). -/
theorem C10_output_size (img : Raster) (ox oy feather pad : Int) (shape : ShapeKind)
    (_hw : 0 < img.width) (_hh : 0 < img.height) :
    ((create_feathered_image img true ox oy feather shape pad).width =
        min img.width img.height ∨
      (create_feathered_image img true ox oy feather shape pad).width =
        min img.width img.height - 1 ∨
      (create_feathered_image img true ox oy feather shape pad).width =
        min img.width img.height + 1) ∧
    ((img.width - min img.width img.height) % 2 = 0 ∨ min img.width img.height % 2 = 0 →
      (create_feathered_image img true ox oy feather shape pad).width =
        min img.width img.height) ∧
    (¬ (img.width - min img.width img.height) % 2 = 0 ∧
        ¬ min img.width img.height % 2 = 0 →
      (create_feathered_image img true ox oy feather shape pad).width =
          min img.width img.height - 1 ∨
        (create_feathered_image img true ox oy feather shape pad).width =
          min img.width img.height + 1) ∧
    ((create_feathered_image img true ox oy feather shape pad).height =
        min img.width img.height ∨
      (create_feathered_image img true ox oy feather shape pad).height =
        min img.width img.height - 1 ∨
      (create_feathered_image img true ox oy feather shape pad).height =
        min img.width img.height + 1) ∧
    ((img.height - min img.width img.height) % 2 = 0 ∨ min img.width img.height % 2 = 0 →
      (create_feathered_image img true ox oy feather shape pad).height =
        min img.width img.height) ∧
    (¬ (img.height - min img.width img.height) % 2 = 0 ∧
        ¬ min img.width img.height % 2 = 0 →
      (create_feathered_image img true ox oy feather shape pad).height =
          min img.width img.height - 1 ∨
        (create_feathered_image img true ox oy feather shape pad).height =
          min img.width img.height + 1) := by
  obtain ⟨hW, hH⟩ := create_dims_square img ox oy feather pad shape
  rw [hW, hH]
  have hw1 := pilRound2_diff (img.width - min img.width img.height + 2 * ox)
    (img.width + min img.width img.height + 2 * ox) (min img.width img.height) (by ring)
  have hh1 := pilRound2_diff (img.height - min img.width img.height + 2 * oy)
    (img.height + min img.width img.height + 2 * oy) (min img.width img.height) (by ring)
  exact ⟨hw1.1, fun hp => hw1.2.1 (by omega), fun hp => hw1.2.2 (by omega),
    hh1.1, fun hp => hh1.2.1 (by omega), fun hp => hh1.2.2 (by omega)⟩

/-- C10, witness: the amended statement at the 4×3 instance, where the width
slack `4 - 3 = 1` and `c = 3` are both odd and the width is indeed `c + 1`. -/
theorem C10_output_size_witness :
    (create_feathered_image fourByThree true 0 0 1 ShapeKind.rectangle 2).width =
        min fourByThree.width fourByThree.height - 1 ∨
      (create_feathered_image fourByThree true 0 0 1 ShapeKind.rectangle 2).width =
        min fourByThree.width fourByThree.height + 1 :=
  (C10_output_size fourByThree 0 0 1 2 ShapeKind.rectangle
    (by decide) (by decide)).2.2.1 (by decide)
